import Mathlib

/-!
Shallow embedding of `avndb` (src/avndb/client.py, src/avndb/exceptions.py):
a client library for the VNDB web API. The embedding models

* the Python value universe actually flowing through the filter translator
  (`PyAtom` for strings/ints, `PyVal` for an atom or a list of atoms — the
  only two shapes `VNFilter._dict` ever produces);
* the exception classes raised by the library (`PyError`, with `ErrKind`
  projecting a value to its Python class);
* the filter dataclasses `VNDBFilter`, `VNFilter`, `Released`, `Length`,
  including their `__post_init__` validation (modelled as `mk_checked`
  constructors returning `Except`) and their `_parse`/`_dict` methods;
* the five client operations, modelled as pure functions of the client
  state (`session : Option ClientSession`) and of the HTTP response they
  would receive (status code plus decoded body), returning `Except PyError`.

Machine integers are modelled as `Int` (Python ints are unbounded).
Python truthiness on the optional fields is modelled by `truthyStr` /
`truthyInt` (non-None and non-empty / non-zero).
-/

namespace Avndb

/-- A Python atom appearing in filter expressions: a `str` or an `int`. -/
inductive PyAtom where
  | s (v : String)
  | i (v : Int)
deriving DecidableEq, Repr

/-- A Python value appearing as a `VNFilter._dict` entry or as an element of
the translated expression list: either an atom or a (flat) list of atoms.
These are the only shapes the source ever builds at those spots. -/
inductive PyVal where
  | a (v : PyAtom)
  | l (v : List PyAtom)
deriving DecidableEq, Repr

/-- Python exception kind (the exception's class). -/
inductive ErrKind where
  | runtimeError
  | illformedVNDBQuery
  | keyError
deriving DecidableEq, Repr

/-- A raised Python exception: `RuntimeError`, `IllformedVNDBQuery`
(src/avndb/exceptions.py) or `KeyError`, with its message/key. -/
inductive PyError where
  | runtimeError (msg : String)
  | illformedVNDBQuery (msg : String)
  | keyError (key : String)
deriving DecidableEq, Repr

/-- The class of an exception value: two exceptions are of the same kind
iff they are instances of the same Python exception class. -/
def PyError.kind : PyError → ErrKind
  | .runtimeError _ => .runtimeError
  | .illformedVNDBQuery _ => .illformedVNDBQuery
  | .keyError _ => .keyError

/-- Did the computation succeed (no exception raised)? -/
def exOk {ε α : Type} : Except ε α → Bool
  | Except.ok _ => true
  | Except.error _ => false

/-- The kind of the exception a computation raised, if any. -/
def exErrKind {α : Type} : Except PyError α → Option ErrKind
  | Except.error e => some e.kind
  | Except.ok _ => none

/-- Python truthiness of an `Optional[str]` field: `None` and `""` are falsy. -/
def truthyStr : Option String → Bool
  | none => false
  | some s => s != ""

/-- Python truthiness of an `Optional[int]` field: `None` and `0` are falsy. -/
def truthyInt : Option Int → Bool
  | none => false
  | some n => n != 0

/-- The string held by an `Optional[str]` field (`""` for `None`; only used
under a `truthyStr` guard, mirroring the source's access after `if self.x:`). -/
def optStrVal : Option String → String
  | none => ""
  | some s => s

/-- The integer held by an `Optional[int]` field (`0` for `None`; only used
under a `truthyInt` guard). -/
def optIntVal : Option Int → Int
  | none => 0
  | some n => n

/-- `NOT_INITIALIZED` message constant (client.py line 10). -/
def NOT_INITIALIZED : String := "VNDBClient not initialized"

/-- The `Released` dataclass (client.py lines 146-176): six optional
comparison operands on the release date. -/
structure Released where
  eq : Option String := none
  neq : Option String := none
  lt : Option String := none
  gt : Option String := none
  geq : Option String := none
  leq : Option String := none
deriving DecidableEq, Repr

/-- Number of truthy comparison fields, as computed by
`Released.__post_init__`'s `sum([bool(self.eq), ...])`. -/
def Released.selectedCount (eq neq lt gt geq leq : Option String) : Nat :=
  (truthyStr eq).toNat + (truthyStr neq).toNat + (truthyStr lt).toNat +
  (truthyStr gt).toNat + (truthyStr geq).toNat + (truthyStr leq).toNat

/-- Constructing a `Released`: dataclass field assignment followed by
`__post_init__` (client.py lines 156-161), which raises `IllformedVNDBQuery`
when more than one, or none, of the six fields is truthy. -/
def Released.mk_checked (eq neq lt gt geq leq : Option String) :
    Except PyError Released :=
  let n := Released.selectedCount eq neq lt gt geq leq
  if n > 1 then
    .error (.illformedVNDBQuery
      "From filter Released: Only one of the attributes can be set at a time.")
  else if n == 0 then
    .error (.illformedVNDBQuery
      "From filter Released: At least one of the attributes must be set.")
  else .ok ⟨eq, neq, lt, gt, geq, leq⟩

/-- `Released._parse` (client.py lines 163-176): first truthy field wins,
returning the two-element `[operator, value]` list; `None` if no field is
truthy. -/
def Released._parse (r : Released) : Option (List PyAtom) :=
  if truthyStr r.eq then some [.s "=", .s (optStrVal r.eq)]
  else if truthyStr r.neq then some [.s "!=", .s (optStrVal r.neq)]
  else if truthyStr r.lt then some [.s "<", .s (optStrVal r.lt)]
  else if truthyStr r.gt then some [.s ">", .s (optStrVal r.gt)]
  else if truthyStr r.geq then some [.s ">=", .s (optStrVal r.geq)]
  else if truthyStr r.leq then some [.s "<=", .s (optStrVal r.leq)]
  else none

/-- The `Length` dataclass (client.py lines 180-198): two optional integer
comparison operands. -/
structure Length where
  eq : Option Int := none
  neq : Option Int := none
deriving DecidableEq, Repr

/-- Number of truthy comparison fields of a `Length`
(`sum([bool(self.eq), bool(self.neq)])`). -/
def Length.selectedCount (eq neq : Option Int) : Nat :=
  (truthyInt eq).toNat + (truthyInt neq).toNat

/-- Constructing a `Length`: field assignment plus `__post_init__`
(client.py lines 186-191). -/
def Length.mk_checked (eq neq : Option Int) : Except PyError Length :=
  let n := Length.selectedCount eq neq
  if n > 1 then
    .error (.illformedVNDBQuery
      "From filter Length: Only one of the attributes can be set at a time.")
  else if n == 0 then
    .error (.illformedVNDBQuery
      "From filter Length: At least one of the attributes must be set.")
  else .ok ⟨eq, neq⟩

/-- `Length._parse` (client.py lines 193-198). -/
def Length._parse (l : Length) : Option (List PyAtom) :=
  if truthyInt l.eq then some [.s "=", .i (optIntVal l.eq)]
  else if truthyInt l.neq then some [.s "!=", .i (optIntVal l.neq)]
  else none

/-- The `VNFilter` dataclass (client.py lines 91-132), with the source's
default values (empty string, empty lists, `None`, `0`). -/
structure VNFilter where
  id : String := ""
  lang : List String := []
  olang : List String := []
  platform : List String := []
  released : Option Released := none
  length : Option Length := none
  tag : List String := []
  dtag : List String := []
  anime_id : Int := 0
deriving DecidableEq, Repr

/-- A `_dict` entry for a string field: `self.x if self.x else None`, then
dropped by the `{k: v for k, v in ... if v}` comprehension when falsy. -/
def strEntry (k : String) (s : String) : List (String × PyVal) :=
  if s == "" then [] else [(k, PyVal.a (.s s))]

/-- A `_dict` entry for a list-of-strings field (dropped when empty). -/
def listEntry (k : String) : List String → List (String × PyVal)
  | [] => []
  | l => [(k, PyVal.l (l.map PyAtom.s))]

/-- A `_dict` entry for a `Released`/`Length` field:
`self.x._parse() if self.x else None`, then dropped when falsy (`None` or
an empty list). -/
def parsedEntry (k : String) : Option (List PyAtom) → List (String × PyVal)
  | none => []
  | some [] => []
  | some l => [(k, PyVal.l l)]

/-- A `_dict` entry for the `anime_id` int field (kept as-is, then dropped
by the comprehension when `0`). -/
def intEntry (k : String) (n : Int) : List (String × PyVal) :=
  if n == 0 then [] else [(k, PyVal.a (.i n))]

/-- `VNFilter._dict` (client.py lines 118-132): the ordered dictionary of
non-falsy filter entries. Order is Python dict insertion order. -/
def VNFilter._dict (f : VNFilter) : List (String × PyVal) :=
  strEntry "id" f.id ++
  listEntry "lang" f.lang ++
  listEntry "olang" f.olang ++
  listEntry "platform" f.platform ++
  parsedEntry "released" (f.released.bind Released._parse) ++
  parsedEntry "length" (f.length.bind Length._parse) ++
  listEntry "tag" f.tag ++
  listEntry "dtag" f.dtag ++
  intEntry "anime_id" f.anime_id

/-- The clauses `_parse_vn_filter`'s loop body appends to `temp_list` for
one `_dict` entry `(k, v)` (client.py lines 302-313):
`isinstance(v, list)` with `isinstance(v[0], str)` expands every element of
`v` into `[k, "=", element]`; a list whose head is not a `str` is spliced
as `[k] + v`; a `str` or `int` scalar becomes `[k, "=", v]`.
The `PyVal.l []` case never arises: `_dict` drops falsy (hence empty-list)
values, and on it the source would raise `IndexError` at `v[0]`. -/
def VNDBClient.clausesFor (k : String) : PyVal → List PyVal
  | PyVal.l [] => []
  | PyVal.l (v0 :: vs) =>
    match v0 with
    | PyAtom.s _ => (v0 :: vs).map (fun value => PyVal.l [PyAtom.s k, PyAtom.s "=", value])
    | PyAtom.i _ => [PyVal.l (PyAtom.s k :: v0 :: vs)]
  | PyVal.a (PyAtom.s s) => [PyVal.l [PyAtom.s k, PyAtom.s "=", PyAtom.s s]]
  | PyVal.a (PyAtom.i n) => [PyVal.l [PyAtom.s k, PyAtom.s "=", PyAtom.i n]]

/-- `VNDBClient._parse_vn_filter` (client.py lines 292-316): `[]` for a
`None` filter, otherwise `["and"]` followed by the clauses accumulated over
the `_dict` entries. -/
def VNDBClient._parse_vn_filter (filter : Option VNFilter) : List PyVal :=
  match filter with
  | none => []
  | some f =>
    PyVal.a (PyAtom.s "and") ::
      (f._dict.map (fun kv => VNDBClient.clausesFor kv.1 kv.2)).flatten

/-- Split a character list at every `-` (used to model the shape
`%Y-%m-%d`, whose three groups consist of digits only, so the split is
exactly the regex decomposition). -/
def splitOnDash : List Char → List (List Char)
  | [] => [[]]
  | c :: cs =>
    let r := splitOnDash cs
    if c = '-' then [] :: r
    else
      match r with
      | [] => [[c]]
      | g :: gs => (c :: g) :: gs

/-- Numeric value of a digit string. -/
def digitsVal (l : List Char) : Nat :=
  l.foldl (fun a c => a * 10 + (c.toNat - 48)) 0

/-- Gregorian leap year, as in Python's `datetime`. -/
def isLeap (y : Nat) : Bool :=
  y % 4 == 0 && (y % 100 != 0 || y % 400 == 0)

/-- Days in a month, as validated by Python's `datetime.date`. -/
def daysInMonth (y m : Nat) : Nat :=
  if m == 2 then (if isLeap y then 29 else 28)
  else if m == 4 || m == 6 || m == 9 || m == 11 then 30
  else 31

/-- Model of `datetime.datetime.strptime(s, "%Y-%m-%d")` succeeding:
CPython compiles the format to the regex
`(\d\d\d\d)-(1[0-2]|0[1-9]|[1-9])-(3[01]|[12]\d|0[1-9]|[1-9])`, requires it
to consume the whole string, and then `datetime.date(year, month, day)`
additionally requires `year >= 1` and the day to exist in that month.
So: a 4-digit year, a 1-2 digit month in 1..12, a 1-2 digit day valid for
that month, separated by literal dashes. (`\d` is modelled as the ASCII
digits.) -/
def strptime_Y_m_d (s : String) : Bool :=
  match splitOnDash s.toList with
  | [y, m, d] =>
    y.length == 4 && y.all Char.isDigit &&
    (m.length == 1 || m.length == 2) && m.all Char.isDigit &&
    (d.length == 1 || d.length == 2) && d.all Char.isDigit &&
    decide (1 ≤ digitsVal m) && decide (digitsVal m ≤ 12) &&
    decide (1 ≤ digitsVal d) && decide (1 ≤ digitsVal y) &&
    decide (digitsVal d ≤ daysInMonth (digitsVal y) (digitsVal m))
  | _ => false

/-- The `VNDBFilter` dataclass (client.py lines 35-89). -/
structure VNDBFilter where
  lang : List String := []
  olang : List String := []
  releasedBefore : String := ""
  releasedAfter : String := ""
  releasedOn : String := ""
  producers : List String := []
deriving DecidableEq, Repr

/-- Constructing a `VNDBFilter`: field assignment plus `__post_init__`
(client.py lines 74-89), which `strptime`-checks each truthy (non-empty)
date field in order and raises `IllformedVNDBQuery` on parse failure. -/
def VNDBFilter.mk_checked (lang olang : List String)
    (releasedBefore releasedAfter releasedOn : String)
    (producers : List String) : Except PyError VNDBFilter :=
  if releasedBefore != "" && !strptime_Y_m_d releasedBefore then
    .error (.illformedVNDBQuery
      "releasedBefore must be in the YYYY-MM-DD format and must be a valid date.")
  else if releasedAfter != "" && !strptime_Y_m_d releasedAfter then
    .error (.illformedVNDBQuery
      "releasedAfter must be in the YYYY-MM-DD format and must be a valid date.")
  else if releasedOn != "" && !strptime_Y_m_d releasedOn then
    .error (.illformedVNDBQuery
      "releasedOn must be in the YYYY-MM-DD format and must be a valid date.")
  else .ok ⟨lang, olang, releasedBefore, releasedAfter, releasedOn, producers⟩

/-- Response records (client.py lines 12-33, 202-214). -/
structure VNDBUser where
  id : String
  username : String
  lengthvotes : Option Int := none
  lengthvotes_sum : Option Int := none
deriving DecidableEq, Repr

/-- The `VNDBAuthInfo` response record. -/
structure VNDBAuthInfo where
  id : String
  username : String
  permissions : Option (List String) := none
deriving DecidableEq, Repr

/-- The `VNDBStats` response record. -/
structure VNDBStats where
  chars : Int
  producers : Int
  releases : Int
  staff : Int
  tags : Int
  traits : Int
  vn : Int
deriving DecidableEq, Repr

/-- The `VN` response record. -/
structure VN where
  id : Int
  length : Int
  rating : Int
  votecount : Int
  devstatus : Int
deriving DecidableEq, Repr

/-- The transport session handle (`aiohttp.ClientSession`); its internals
are irrelevant to the embedded behaviour. -/
structure ClientSession where
deriving DecidableEq, Repr

/-- The client state: `self.session`, `None` outside the scoped
`async with` lifetime (client.py lines 273-283). -/
structure VNDBClient where
  session : Option ClientSession
deriving DecidableEq, Repr

/-- The `_client` property (client.py lines 285-290): raises
`RuntimeError(NOT_INITIALIZED)` when the session is `None`. This runs
before any network interaction in every operation. -/
def VNDBClient._client (c : VNDBClient) : Except PyError ClientSession :=
  match c.session with
  | none => .error (.runtimeError NOT_INITIALIZED)
  | some s => .ok s

/-- Model of aiohttp's `ClientResponse.__repr__`, interpolated by
`post_vn`'s failure message `f"Failed to fetch VN: {response}"`; the repr
includes the response status. -/
def respRepr (status : Nat) : String :=
  "<ClientResponse [" ++ toString status ++ "]>"

/-- `get_schema` (client.py lines 319-329), as a function of the client
state and of the response (status, decoded JSON body) the request would
get: not-initialized check, then non-200 raises
`RuntimeError(f"Failed to fetch schema: {response.status}")`, else the
JSON body is returned. -/
def VNDBClient.get_schema (c : VNDBClient) (status : Nat) (data : PyVal) :
    Except PyError PyVal :=
  match c._client with
  | .error e => .error e
  | .ok _ =>
    if status != 200 then
      .error (.runtimeError ("Failed to fetch schema: " ++ toString status))
    else .ok data

/-- `get_stats` (client.py lines 331-342): non-200 raises
`RuntimeError(f"Failed to fetch stats: {response.status}")`, else the body
is decoded into a `VNDBStats`. -/
def VNDBClient.get_stats (c : VNDBClient) (status : Nat) (data : VNDBStats) :
    Except PyError VNDBStats :=
  match c._client with
  | .error e => .error e
  | .ok _ =>
    if status != 200 then
      .error (.runtimeError ("Failed to fetch stats: " ++ toString status))
    else .ok data

/-- `get_user` (client.py lines 344-366). The decoded body is the JSON
dictionary mapping the query string to the user's fields, modelled as an
association list. Non-200 returns `None`; a falsy (empty) body returns
`None`; otherwise `data[q]` is looked up (`KeyError` when absent, as in
Python) and wrapped in a `VNDBUser`. -/
def VNDBClient.get_user (c : VNDBClient) (q : String) (status : Nat)
    (data : List (String × VNDBUser)) : Except PyError (Option VNDBUser) :=
  match c._client with
  | .error e => .error e
  | .ok _ =>
    if status != 200 then .ok none
    else
      match data with
      | [] => .ok none
      | _ =>
        match data.lookup q with
        | some u => .ok (some u)
        | none => .error (.keyError q)

/-- `get_authinfo` (client.py lines 368-389): non-200 returns `None`, a
falsy body returns `None`, otherwise the body decodes into a
`VNDBAuthInfo`. -/
def VNDBClient.get_authinfo (c : VNDBClient) (token : String) (status : Nat)
    (data : Option VNDBAuthInfo) : Except PyError (Option VNDBAuthInfo) :=
  match c._client with
  | .error e => .error e
  | .ok _ =>
    if status != 200 then .ok none
    else
      match data with
      | none => .ok none
      | some a => .ok (some a)

/-- The `filters` payload entry built by `post_vn` (client.py lines
394-397): without a filter, the flat clause `["search", "=", query]`; with
one, the translated filter with the search clause appended. -/
def VNDBClient.post_vn_filters (query : String) (filter : Option VNFilter) :
    List PyVal :=
  match filter with
  | none => [PyVal.a (.s "search"), PyVal.a (.s "="), PyVal.a (.s query)]
  | some f =>
    VNDBClient._parse_vn_filter (some f) ++
      [PyVal.l [PyAtom.s "search", PyAtom.s "=", PyAtom.s query]]

/-- `post_vn`'s response handling (client.py lines 402-412): status 429
raises the rate-limit `RuntimeError`; any other non-200 raises
`RuntimeError(f"Failed to fetch VN: {response}")`; a falsy body returns
`None`; otherwise `data["results"]` is mapped into `VN` records. The body
is modelled as `none` (falsy) or `some rows` (the decoded `results`
array). -/
def VNDBClient.post_vn (c : VNDBClient) (query : String)
    (filter : Option VNFilter) (status : Nat) (data : Option (List VN)) :
    Except PyError (Option (List VN)) :=
  match c._client with
  | .error e => .error e
  | .ok _ =>
    if status == 429 then
      .error (.runtimeError
        "Rate limit exceeded. Please wait a few seconds and try again.")
    else if status != 200 then
      .error (.runtimeError ("Failed to fetch VN: " ++ respRepr status))
    else
      match data with
      | none => .ok none
      | some rows => .ok (some rows)

/-- Is the optional list a two-element list? -/
def isPair : Option (List PyAtom) → Bool
  | some [_, _] => true
  | _ => false

/-- Success/error-kind shape of `Released.mk_checked`: construction
succeeds exactly when the truthy-field count is 1, and every failure is an
`IllformedVNDBQuery`. -/
lemma mk_checked_released_shape (eq neq lt gt geq leq : Option String) :
    exOk (Released.mk_checked eq neq lt gt geq leq) =
      decide (Released.selectedCount eq neq lt gt geq leq = 1) ∧
    exErrKind (Released.mk_checked eq neq lt gt geq leq) =
      (if Released.selectedCount eq neq lt gt geq leq = 1 then none
       else some ErrKind.illformedVNDBQuery) := by
  rcases hn : Released.selectedCount eq neq lt gt geq leq with _ | _ | k <;>
    simp [Released.mk_checked, hn, exOk, exErrKind, PyError.kind]

/-- Success/error-kind shape of `Length.mk_checked`. -/
lemma mk_checked_length_shape (eqn neqn : Option Int) :
    exOk (Length.mk_checked eqn neqn) =
      decide (Length.selectedCount eqn neqn = 1) ∧
    exErrKind (Length.mk_checked eqn neqn) =
      (if Length.selectedCount eqn neqn = 1 then none
       else some ErrKind.illformedVNDBQuery) := by
  rcases hn : Length.selectedCount eqn neqn with _ | _ | k <;>
    simp [Length.mk_checked, hn, exOk, exErrKind, PyError.kind]

/-- C1: the claim says a `Released(geq="2020-01-01")` sub-filter is spliced
into the conjunction as the single clause `["released", ">=", "2020-01-01"]`.
The code instead hits the `isinstance(v[0], str)` branch (the operator
`">="` is itself a `str`), expanding the `[operator, value]` pair
element-wise into `["released", "=", ">="]` and
`["released", "=", "2020-01-01"]`; the `[k] + v` splice branch is
unreachable. This theorem evaluates the translator at the failing input. -/
theorem C1_released_filter_misparse :
    VNDBClient._parse_vn_filter
        (some { released := some ⟨none, none, none, none, some "2020-01-01", none⟩ }) =
      [PyVal.a (.s "and"),
       PyVal.l [.s "released", .s "=", .s ">="],
       PyVal.l [.s "released", .s "=", .s "2020-01-01"]] ∧
    VNDBClient._parse_vn_filter
        (some { released := some ⟨none, none, none, none, some "2020-01-01", none⟩ }) ≠
      [PyVal.a (.s "and"),
       PyVal.l [.s "released", .s ">=", .s "2020-01-01"]] :=
  ⟨rfl, by decide⟩

/-- C2 counterexample: translating a `VNFilter` with every field left at
its default does not yield the empty list — `_parse_vn_filter` only
returns `[]` for `None`, and a `VNFilter` instance is always truthy, so
the all-defaults filter yields the bare conjunction `["and"]`. -/
theorem C2_counterexample :
    VNDBClient._parse_vn_filter (some ({} : VNFilter)) ≠ [] :=
  by decide

/-- C2 amended: translating an absent filter (`None`) yields the empty
expression list, but translating a `VNFilter` with all fields at their
defaults yields the one-element list `["and"]` (an "and" with no
clauses), not `[]`. -/
theorem C2_amended_empty_translation :
    VNDBClient._parse_vn_filter none = [] ∧
    VNDBClient._parse_vn_filter (some ({} : VNFilter)) = [PyVal.a (.s "and")] :=
  ⟨rfl, rfl⟩

/-- C8: when the API returns status 200 with an empty body, `get_user`
returns the explicit absence value `None` (modelled `.ok none`) rather
than raising, and so does `get_authinfo` for an unrecognized token. -/
theorem C8_not_found_absence (q tok : String) :
    VNDBClient.get_user ⟨some ⟨⟩⟩ q 200 [] = .ok none ∧
    VNDBClient.get_authinfo ⟨some ⟨⟩⟩ tok 200 none = .ok none :=
  ⟨rfl, rfl⟩

/-- C9: each of the five operations invoked on a client whose session is
`None` fails with `RuntimeError(NOT_INITIALIZED)` regardless of the
status/body the network would have produced — i.e. before any network
interaction, since the result does not depend on the response. -/
theorem C9_not_initialized (status : Nat) (sdata : PyVal) (stats : VNDBStats)
    (q tok query : String) (udata : List (String × VNDBUser))
    (adata : Option VNDBAuthInfo) (f : Option VNFilter)
    (vdata : Option (List VN)) :
    VNDBClient.get_schema ⟨none⟩ status sdata =
      .error (.runtimeError NOT_INITIALIZED) ∧
    VNDBClient.get_stats ⟨none⟩ status stats =
      .error (.runtimeError NOT_INITIALIZED) ∧
    VNDBClient.get_user ⟨none⟩ q status udata =
      .error (.runtimeError NOT_INITIALIZED) ∧
    VNDBClient.get_authinfo ⟨none⟩ tok status adata =
      .error (.runtimeError NOT_INITIALIZED) ∧
    VNDBClient.post_vn ⟨none⟩ query f status vdata =
      .error (.runtimeError NOT_INITIALIZED) :=
  ⟨rfl, rfl, rfl, rfl, rfl⟩

/-- C3 counterexample: the failure `post_vn` produces for a 429 response
and the failure it produces for another non-success status (here 500) are
values of the same error kind (`RuntimeError`), so the claim that they are
of different kinds is false. -/
theorem C3_counterexample :
    exErrKind (VNDBClient.post_vn ⟨some ⟨⟩⟩ "saya no uta" none 429 none) =
      some ErrKind.runtimeError ∧
    exErrKind (VNDBClient.post_vn ⟨some ⟨⟩⟩ "saya no uta" none 500 none) =
      some ErrKind.runtimeError ∧
    exErrKind (VNDBClient.post_vn ⟨some ⟨⟩⟩ "saya no uta" none 429 none) =
      exErrKind (VNDBClient.post_vn ⟨some ⟨⟩⟩ "saya no uta" none 500 none) :=
  ⟨rfl, rfl, rfl⟩

/-- C3 amended: a 429 response to `post_vn` and any other non-success
status both produce a `RuntimeError` — the same error kind — and are
distinguishable only by their messages: the fixed rate-limit message for
429 versus `"Failed to fetch VN: {response}"` otherwise. -/
theorem C3_amended_rate_limit (st : Nat) (q : String) (f : Option VNFilter)
    (d d2 : Option (List VN)) (h200 : st ≠ 200) (h429 : st ≠ 429) :
    VNDBClient.post_vn ⟨some ⟨⟩⟩ q f 429 d =
      .error (.runtimeError
        "Rate limit exceeded. Please wait a few seconds and try again.") ∧
    VNDBClient.post_vn ⟨some ⟨⟩⟩ q f st d2 =
      .error (.runtimeError ("Failed to fetch VN: " ++ respRepr st)) ∧
    exErrKind (VNDBClient.post_vn ⟨some ⟨⟩⟩ q f 429 d) =
      exErrKind (VNDBClient.post_vn ⟨some ⟨⟩⟩ q f st d2) := by
  refine ⟨rfl, ?_, ?_⟩ <;>
    simp [VNDBClient.post_vn, VNDBClient._client, exErrKind, PyError.kind,
      h200, h429]

/-- C3 witness: the amended theorem at status 500. -/
theorem C3_amended_rate_limit_witness :
    VNDBClient.post_vn ⟨some ⟨⟩⟩ "q" none 500 none =
      .error (.runtimeError ("Failed to fetch VN: " ++ respRepr 500)) :=
  (C3_amended_rate_limit 500 "q" none none none (by decide) (by decide)).2.1

/-- C4 counterexample: `get_user` (and `get_authinfo`) on a non-success,
non-429 status (here 500) does not surface a failure at all — it returns
the absence value `None`, contradicting the claim that every operation
fails with a generic failure carrying the status. -/
theorem C4_counterexample :
    VNDBClient.get_user ⟨some ⟨⟩⟩ "alice" 500 [] = .ok none ∧
    VNDBClient.get_authinfo ⟨some ⟨⟩⟩ "tok-xyz" 500 none = .ok none :=
  ⟨rfl, rfl⟩

/-- C4 amended: on a non-success, non-429 status, `get_schema`,
`get_stats` and `post_vn` fail with a `RuntimeError` carrying the status
(directly for schema/stats, via the response repr for `post_vn`), but
`get_user` and `get_authinfo` instead return the absence value `None`. -/
theorem C4_amended_status_handling (st : Nat) (sdata : PyVal)
    (stats : VNDBStats) (q tok : String) (udata : List (String × VNDBUser))
    (adata : Option VNDBAuthInfo) (f : Option VNFilter)
    (vdata : Option (List VN)) (h200 : st ≠ 200) (h429 : st ≠ 429) :
    VNDBClient.get_schema ⟨some ⟨⟩⟩ st sdata =
      .error (.runtimeError ("Failed to fetch schema: " ++ toString st)) ∧
    VNDBClient.get_stats ⟨some ⟨⟩⟩ st stats =
      .error (.runtimeError ("Failed to fetch stats: " ++ toString st)) ∧
    VNDBClient.post_vn ⟨some ⟨⟩⟩ q f st vdata =
      .error (.runtimeError ("Failed to fetch VN: " ++ respRepr st)) ∧
    VNDBClient.get_user ⟨some ⟨⟩⟩ q st udata = .ok none ∧
    VNDBClient.get_authinfo ⟨some ⟨⟩⟩ tok st adata = .ok none := by
  refine ⟨?_, ?_, ?_, ?_, ?_⟩ <;>
    simp [VNDBClient.get_schema, VNDBClient.get_stats, VNDBClient.post_vn,
      VNDBClient.get_user, VNDBClient.get_authinfo, VNDBClient._client,
      h200, h429]

/-- C4 witness: the amended theorem at status 500. -/
theorem C4_amended_status_handling_witness :
    VNDBClient.get_stats ⟨some ⟨⟩⟩ 500 ⟨0, 0, 0, 0, 0, 0, 0⟩ =
      .error (.runtimeError ("Failed to fetch stats: " ++ toString 500)) :=
  (C4_amended_status_handling 500 (PyVal.a (.i 0)) ⟨0, 0, 0, 0, 0, 0, 0⟩
    "alice" "tok" [] none none none (by decide) (by decide)).2.1

/-- C5 counterexample: `Released` holds date operands, yet constructing it
with the malformed date string `"not-a-date"` succeeds — `Released`'s
`__post_init__` never format-checks its operands — so the claim that every
date-holding field rejects malformed strings at construction is false. -/
theorem C5_counterexample :
    strptime_Y_m_d "not-a-date" = false ∧
    Released.mk_checked none none none none (some "not-a-date") none =
      .ok ⟨none, none, none, none, some "not-a-date", none⟩ :=
  ⟨by decide, rfl⟩

/-- C5 amended: only `VNDBFilter`'s `releasedBefore`/`releasedAfter`/
`releasedOn` are date-validated at construction: a non-empty value
constructs successfully iff it passes the `%Y-%m-%d` parse, and a failing
value raises `IllformedVNDBQuery`; the date operands of `Released` are not
format-validated at all (any non-empty operand is accepted). -/
theorem C5_amended_date_validation (s g : String) :
    (exOk (VNDBFilter.mk_checked [] [] s "" "" []) =
      ((s == "") || strptime_Y_m_d s)) ∧
    (exOk (VNDBFilter.mk_checked [] [] "" s "" []) =
      ((s == "") || strptime_Y_m_d s)) ∧
    (exOk (VNDBFilter.mk_checked [] [] "" "" s []) =
      ((s == "") || strptime_Y_m_d s)) ∧
    (exErrKind (VNDBFilter.mk_checked [] [] s "" "" []) =
      if ((s == "") || strptime_Y_m_d s) then none
      else some ErrKind.illformedVNDBQuery) ∧
    (exOk (Released.mk_checked none none none none (some g) none) =
      (g != "")) := by
  refine ⟨?_, ?_, ?_, ?_, ?_⟩
  case refine_5 =>
    cases hg : (g == "") <;>
      simp [Released.mk_checked, Released.selectedCount, truthyStr,
        exOk, bne, hg]
  all_goals
    cases h : (s == "") <;> cases h2 : strptime_Y_m_d s <;>
      simp_all [VNDBFilter.mk_checked, exOk, exErrKind, PyError.kind]

/-- C6: constructing a `Released` or a `Length` succeeds if and only if
exactly one comparison field is truthy, and every construction failure is
an `IllformedVNDBQuery` (the only effect of a failed construction is that
error — no object escapes, since `mk_checked` returns either the object or
the error and nothing else). -/
theorem C6_exactly_one_comparison (eq neq lt gt geq leq : Option String)
    (eqn neqn : Option Int) :
    (exOk (Released.mk_checked eq neq lt gt geq leq) =
      decide (Released.selectedCount eq neq lt gt geq leq = 1)) ∧
    (exErrKind (Released.mk_checked eq neq lt gt geq leq) =
      if Released.selectedCount eq neq lt gt geq leq = 1 then none
      else some ErrKind.illformedVNDBQuery) ∧
    (exOk (Length.mk_checked eqn neqn) =
      decide (Length.selectedCount eqn neqn = 1)) ∧
    (exErrKind (Length.mk_checked eqn neqn) =
      if Length.selectedCount eqn neqn = 1 then none
      else some ErrKind.illformedVNDBQuery) :=
  ⟨(mk_checked_released_shape eq neq lt gt geq leq).1,
   (mk_checked_released_shape eq neq lt gt geq leq).2,
   (mk_checked_length_shape eqn neqn).1,
   (mk_checked_length_shape eqn neqn).2⟩

/-- C7: a `VNFilter` whose only non-empty field is the string-list field
`tag` with two or more elements translates into one `"="` clause per
element, all under a single leading `"and"`. -/
theorem C7_string_list_expansion (t1 t2 : String) (rest : List String) :
    VNDBClient._parse_vn_filter (some { tag := t1 :: t2 :: rest }) =
      PyVal.a (.s "and") ::
        (t1 :: t2 :: rest).map
          (fun v => PyVal.l [.s "tag", .s "=", .s v]) := by
  simp [VNDBClient._parse_vn_filter, VNFilter._dict, strEntry, listEntry,
    parsedEntry, intEntry, VNDBClient.clausesFor]

/-- C10: on any `Released` and `Length` that pass construction, `_parse`
returns a two-element `[operator, operand]` list whose operator matches
the unique truthy field; in particular the trailing `return None` is never
reached. -/
theorem C10_parse_total (eq neq lt gt geq leq : Option String)
    (eqn neqn : Option Int)
    (hr : exOk (Released.mk_checked eq neq lt gt geq leq) = true)
    (hl : exOk (Length.mk_checked eqn neqn) = true) :
    (isPair (Released._parse ⟨eq, neq, lt, gt, geq, leq⟩) = true ∧
     Released._parse ⟨eq, neq, lt, gt, geq, leq⟩ ≠ none ∧
     (truthyStr eq = true →
       Released._parse ⟨eq, neq, lt, gt, geq, leq⟩ =
         some [.s "=", .s (optStrVal eq)]) ∧
     (truthyStr neq = true →
       Released._parse ⟨eq, neq, lt, gt, geq, leq⟩ =
         some [.s "!=", .s (optStrVal neq)]) ∧
     (truthyStr lt = true →
       Released._parse ⟨eq, neq, lt, gt, geq, leq⟩ =
         some [.s "<", .s (optStrVal lt)]) ∧
     (truthyStr gt = true →
       Released._parse ⟨eq, neq, lt, gt, geq, leq⟩ =
         some [.s ">", .s (optStrVal gt)]) ∧
     (truthyStr geq = true →
       Released._parse ⟨eq, neq, lt, gt, geq, leq⟩ =
         some [.s ">=", .s (optStrVal geq)]) ∧
     (truthyStr leq = true →
       Released._parse ⟨eq, neq, lt, gt, geq, leq⟩ =
         some [.s "<=", .s (optStrVal leq)])) ∧
    (isPair (Length._parse ⟨eqn, neqn⟩) = true ∧
     Length._parse ⟨eqn, neqn⟩ ≠ none ∧
     (truthyInt eqn = true →
       Length._parse ⟨eqn, neqn⟩ = some [.s "=", .i (optIntVal eqn)]) ∧
     (truthyInt neqn = true →
       Length._parse ⟨eqn, neqn⟩ = some [.s "!=", .i (optIntVal neqn)])) := by
  have hcr : Released.selectedCount eq neq lt gt geq leq = 1 := by
    have h := (mk_checked_released_shape eq neq lt gt geq leq).1
    rw [hr] at h
    exact of_decide_eq_true h.symm
  have hcl : Length.selectedCount eqn neqn = 1 := by
    have h := (mk_checked_length_shape eqn neqn).1
    rw [hl] at h
    exact of_decide_eq_true h.symm
  constructor
  · cases h1 : truthyStr eq <;> cases h2 : truthyStr neq <;>
      cases h3 : truthyStr lt <;> cases h4 : truthyStr gt <;>
        cases h5 : truthyStr geq <;> cases h6 : truthyStr leq <;>
          simp_all [Released.selectedCount, Released._parse, isPair]
  · cases h1 : truthyInt eqn <;> cases h2 : truthyInt neqn <;>
      simp_all [Length.selectedCount, Length._parse, isPair]

/-- C10 witness: the theorem at `Released(geq="2020-01-01")` and
`Length(eq=5)`. -/
theorem C10_parse_total_witness :
    isPair (Released._parse ⟨none, none, none, none, some "2020-01-01", none⟩) =
      true ∧
    isPair (Length._parse ⟨some 5, none⟩) = true :=
  ⟨(C10_parse_total none none none none (some "2020-01-01") none
      (some 5) none rfl rfl).1.1,
   (C10_parse_total none none none none (some "2020-01-01") none
      (some 5) none rfl rfl).2.1⟩

end Avndb
